import Mathlib

/-!
Verification development for the MedAssist MAS triage application
(`app.py`): the red-flag safety gate, the structured-output recovery
pipeline, and the safety-gated consultation driver are embedded as
executable Lean definitions, and the specified properties are proved
about them.
-/

/-! ### Character helpers

Several characters are built with `Char.ofNat` so that the source's
pattern strings (which contain apostrophes, quotes and braces) can be
reproduced exactly. -/

def lbrace : Char := Char.ofNat 123

def rbrace : Char := Char.ofNat 125

def dquote : Char := Char.ofNat 34

def bslash : Char := Char.ofNat 92

def apos : Char := Char.ofNat 39

/-- Whitespace class used by the normalizer; models Python's regex
class `\s` restricted to its ASCII members (space, tab, newline,
carriage return, vertical tab, form feed). -/
def isSpaceChar (c : Char) : Bool :=
  c = ' ' || c = '\t' || c = '\n' || c = '\r' || c = Char.ofNat 11 || c = Char.ofNat 12

/-- ASCII lower-casing, modelling `str.lower()` on the ASCII inputs the
pattern table cares about. -/
def pyLower (c : Char) : Char :=
  if 'A' ≤ c ∧ c ≤ 'Z' then Char.ofNat (c.toNat + 32) else c

/-- Word-character class for the word-boundary assertion `\b`
(`[a-zA-Z0-9_]`). -/
def isWordChar (c : Char) : Bool :=
  c.isAlphanum || c = '_'

/-- Collapse every maximal run of whitespace into a single space,
modelling `re.sub(r"\s+", " ", text)`.  The boolean records whether the
previous character was part of a whitespace run. -/
def collapseAux : Bool → List Char → List Char
  | _, [] => []
  | prevSpace, c :: cs =>
    if isSpaceChar c then
      if prevSpace then collapseAux true cs else ' ' :: collapseAux true cs
    else c :: collapseAux false cs

/-- Model of Python's `str.strip()` on its ASCII whitespace set. -/
def stripChars (l : List Char) : List Char :=
  ((l.dropWhile isSpaceChar).reverse.dropWhile isSpaceChar).reverse

/-- Model of Python's `str.strip()` for whole strings. -/
def pyStrip (s : String) : String :=
  String.mk (stripChars s.data)

/-- The normalized text the safety gate matches against:
`f"{symptoms or ''} {extra or ''}".lower()` followed by
`re.sub(r"\s+", " ", text).strip()` (app.py, `detect_red_flags`). -/
def normalizeText (symptoms extra : String) : List Char :=
  stripChars (collapseAux false ((symptoms.data ++ ' ' :: extra.data).map pyLower))

/-! ### A tiny matcher for the fixed red-flag patterns

Every regular expression in the source's `red_flags` table is a
concatenation of word boundaries `\b`, literal text, finite
alternations `( .. | .. )` (an optional group `(x)?` is the alternation
of `x` with the empty literal), and the gap `.*`.  `RTok` represents
exactly these shapes and `matchToksF`/`rsearch` give them Python's
`re.search` semantics (a match may start anywhere; `.` does not cross a
newline; `\b` holds where exactly one neighbour is a word character). -/

inductive RTok where
  | wb : RTok
  | lit : List Char → RTok
  | alts : List (List Char) → RTok
  | dotstar : RTok

/-- Literal token from a string. -/
def rlit (s : String) : RTok := RTok.lit s.data

/-- Alternation token from strings. -/
def ralts (xs : List String) : RTok := RTok.alts (xs.map String.data)

/-- Optional literal `(s)?`, as an alternation with the empty word. -/
def ropt (s : String) : RTok := RTok.alts [s.data, []]

/-- Does the literal `l` occur at offset `i` of `s`? -/
def litAt (s : List Char) (i : Nat) (l : List Char) : Bool :=
  l.isPrefixOf (s.drop i)

/-- Is the character at offset `i` (if any) a word character? -/
def isWordAt (s : List Char) (i : Nat) : Bool :=
  match s.get? i with
  | some c => isWordChar c
  | none => false

/-- Word-boundary assertion `\b` at offset `i`. -/
def wbAt (s : List Char) (i : Nat) : Bool :=
  ((i != 0) && isWordAt s (i - 1)) != isWordAt s i

/-- `.*` may only skip characters that are not newlines (the source
compiles these patterns without `re.DOTALL`). -/
def noNl (s : List Char) (i d : Nat) : Bool :=
  ((s.drop i).take d).all (fun c => c != '\n')

/-- Match the token list against `s` starting at offset `i`.  The fuel
argument is only there to make the recursion structural; one unit is
spent per token, so fuel `toks.length` is always enough. -/
def matchToksF : Nat → List RTok → List Char → Nat → Bool
  | 0, toks, _, _ => toks.isEmpty
  | Nat.succ f, toks, s, i =>
    match toks with
    | [] => true
    | RTok.wb :: rest => wbAt s i && matchToksF f rest s i
    | RTok.lit l :: rest => litAt s i l && matchToksF f rest s (i + l.length)
    | RTok.alts ls :: rest =>
      ls.any (fun l => litAt s i l && matchToksF f rest s (i + l.length))
    | RTok.dotstar :: rest =>
      (List.range (s.length + 1 - i)).any (fun d => noNl s i d && matchToksF f rest s (i + d))

/-- `re.search` semantics: the pattern may match at any offset. -/
def rsearch (p : List RTok) (s : List Char) : Bool :=
  (List.range (s.length + 1)).any (fun i => matchToksF p.length p s i)

/-- Literal for `can't breathe` (the pattern text contains an
apostrophe). -/
def cantBreathe : String := "can" ++ apos.toString ++ "t breathe"

/-- Literal for `won't stop bleeding`. -/
def wontStopBleeding : String := "won" ++ apos.toString ++ "t stop bleeding"

/-- The fixed ordered category table of `detect_red_flags`
(app.py lines 305-338), with each regular expression transcribed into
`RTok` form. -/
def redFlagTable : List (String × List (List RTok)) :=
  [ ("Chest pain / pressure",
      [ [RTok.wb, rlit "chest pain", RTok.wb],
        [RTok.wb, rlit "chest pressure", RTok.wb],
        [RTok.wb, rlit "tightness in chest", RTok.wb],
        [RTok.wb, rlit "pain in ", ropt "left ", rlit "arm", RTok.wb],
        [RTok.wb, rlit "pain radiat", ralts ["ing", "es"], RTok.wb] ]),
    ("Trouble breathing",
      [ [RTok.wb, rlit "short", ropt "ness", rlit " of breath", RTok.wb],
        [RTok.wb, rlit "difficulty breathing", RTok.wb],
        [RTok.wb, rlit cantBreathe, RTok.wb],
        [RTok.wb, rlit "wheezing", RTok.wb],
        [RTok.wb, rlit "turn", ropt "ing", rlit " blue", RTok.wb],
        [RTok.wb, rlit "bluish", RTok.wb] ]),
    ("Stroke-like symptoms",
      [ [RTok.wb, rlit "face droop", RTok.wb],
        [RTok.wb, rlit "one side", RTok.wb, RTok.dotstar, RTok.wb, rlit "weak", RTok.wb],
        [RTok.wb, rlit "sudden weakness", RTok.wb],
        [RTok.wb, rlit "sudden numb", ropt "ness", RTok.wb],
        [RTok.wb, rlit "slurred speech", RTok.wb],
        [RTok.wb, rlit "trouble speaking", RTok.wb],
        [RTok.wb, rlit "vision loss", RTok.wb],
        [RTok.wb, rlit "sudden severe headache", RTok.wb] ]),
    ("Fainting / severe confusion",
      [ [RTok.wb, rlit "faint", ralts ["ed", "ing", ""], RTok.wb],
        [RTok.wb, rlit "passed out", RTok.wb],
        [RTok.wb, rlit "unconscious", RTok.wb],
        [RTok.wb, rlit "confus", ralts ["ed", "ion"], RTok.wb],
        [RTok.wb, rlit "not responding", RTok.wb],
        [RTok.wb, rlit "seizure", RTok.wb] ]),
    ("Severe bleeding / black stool / vomiting blood",
      [ [RTok.wb, rlit "heavy bleeding", RTok.wb],
        [RTok.wb, rlit wontStopBleeding, RTok.wb],
        [RTok.wb, rlit "vomit", ropt "ing", rlit " blood", RTok.wb],
        [RTok.wb, rlit "blood in vomit", RTok.wb],
        [RTok.wb, rlit "black stool", RTok.wb],
        [RTok.wb, rlit "tarry stool", RTok.wb],
        [RTok.wb, rlit "blood in stool", RTok.wb] ]),
    ("Severe allergic reaction",
      [ [RTok.wb, rlit "swelling of ", ralts ["lips", "tongue", "throat"], RTok.wb],
        [RTok.wb, rlit "throat swelling", RTok.wb],
        [RTok.wb, rlit "hives", RTok.wb],
        [RTok.wb, rlit "anaphylaxis", RTok.wb] ]),
    ("High fever with concerning signs",
      [ [RTok.wb, rlit "fever", RTok.wb, RTok.dotstar, RTok.wb, rlit "neck stiffness", RTok.wb],
        [RTok.wb, rlit "fever", RTok.wb, RTok.dotstar, RTok.wb, rlit "rash", RTok.wb] ]),
    ("Suicidal ideation / self-harm",
      [ [RTok.wb, rlit "want to die", RTok.wb],
        [RTok.wb, rlit "suicid", ralts ["al", "ideation"], RTok.wb],
        [RTok.wb, rlit "self harm", RTok.wb] ]) ]

/-- Substring test on character lists (Python's `in` for strings). -/
def containsSub (hay needle : List Char) : Bool :=
  (List.range (hay.length + 1)).any (fun i => needle.isPrefixOf (hay.drop i))

/-- Substring test on strings. -/
def containsStr (hay needle : String) : Bool :=
  containsSub hay.data needle.data

/-- Does any pattern of one category match? (The per-category `break` in
the source only short-circuits; the category is hit iff some pattern
matches.) -/
def patternHit (text : List Char) (pats : List (List RTok)) : Bool :=
  pats.any (fun p => rsearch p text)

/-- The `hits` list of `detect_red_flags`: the labels of all categories
with at least one matching pattern, in table order. -/
def computeHits (text : List Char) : List String :=
  redFlagTable.filterMap (fun lp => if patternHit text lp.2 then some lp.1 else none)

/-- Age parsing of `detect_red_flags`:
`int(re.sub(r"\D", "", age)) if age else None`, where an empty string
or a digit-free string yields no age signal. -/
def parseAge (age : String) : Option Nat :=
  if age = "" then none
  else
    let ds := age.data.filter Char.isDigit
    if ds.isEmpty then none
    else some (ds.foldl (fun n c => n * 10 + (c.toNat - 48)) 0)

/-- `high_risk_age`: a parsed age below 2 or at/above 65. -/
def highRiskAge (age : String) : Bool :=
  match parseAge age with
  | some n => decide (n < 2) || decide (65 ≤ n)
  | none => false

/-- Code-point comparison of strings, as used by Python's `sorted` on
the flag labels. -/
def charListLt : List Char → List Char → Bool
  | [], [] => false
  | [], _ :: _ => true
  | _ :: _, [] => false
  | a :: as, b :: bs =>
    if a.toNat < b.toNat then true
    else if b.toNat < a.toNat then false
    else charListLt as bs

/-- String comparison for sorting the flags. -/
def strLt (a b : String) : Bool := charListLt a.data b.data

/-- Insertion step of the sort used to model `sorted(...)`. -/
def insertSorted (x : String) : List String → List String
  | [] => [x]
  | y :: ys => if strLt y x then y :: insertSorted x ys else x :: y :: ys

/-- Insertion sort modelling Python's `sorted` (the result only depends
on the multiset of elements, which is all the flags output needs). -/
def sortStrings : List String → List String
  | [] => []
  | x :: xs => insertSorted x (sortStrings xs)

/-- The result record of `detect_red_flags`. -/
structure RiskAssessment where
  level : String
  flags : List String
  high_risk_age : Bool
deriving DecidableEq, Repr

/-- The red-flag safety gate `detect_red_flags(symptoms, age, extra)`
(app.py lines 277-366): normalize the symptom and extra text, collect
category hits, escalate on age, and derive the level with the priority
any-hit > (high-risk age and a fever/breathing token) > none.  The
flags are the deduplicated, sorted hit labels. -/
def detect_red_flags (symptoms : String) (age : String := "") (extra : String := "") : RiskAssessment :=
  let text := normalizeText symptoms extra
  let hits := computeHits text
  let hra := highRiskAge age
  let level :=
    if hits = [] then
      if hra && (containsSub text "fever".data || containsSub text "breathing".data) then
        "medium"
      else "none"
    else "high"
  ⟨level, sortStrings hits.dedup, hra⟩

/-! ### Structured output recovery

`extract_json` models `re.search(r"\{.*\}", text, flags=re.DOTALL)`
(app.py lines 222-240).  For this pattern, leftmost-greedy matching
returns exactly the span from the first `{` of the text to the last
`}`, provided that `}` comes after that `{`; otherwise there is no
match and the function returns the empty string. -/

/-- Drop characters up to (and keeping) the first `{`; `none` when the
text has no `{`. -/
def afterFirstBrace : List Char → Option (List Char)
  | [] => none
  | c :: cs => if c = lbrace then some (c :: cs) else afterFirstBrace cs

/-- Drop characters up to (and keeping) the first `}`; `none` when the
text has no `}`. -/
def dropUntilClose : List Char → Option (List Char)
  | [] => none
  | c :: cs => if c = rbrace then some (c :: cs) else dropUntilClose cs

/-- Keep the prefix of `s` that ends at its last `}`. -/
def upToLastClose (s : List Char) : Option (List Char) :=
  (dropUntilClose s.reverse).map List.reverse

/-- `extract_json(text)`: the greedy brace-delimited span, or `""`. -/
def extract_json (text : String) : String :=
  ((((afterFirstBrace text.data).bind upToLastClose).map String.mk).getD "")

/-! ### A JSON decoder fragment modelling `json.loads`

The decoder supports objects, arrays, strings (with the standard
escapes including `\uXXXX`), numbers (kept as their lexeme), `true`,
`false` and `null`, over the strict JSON grammar; like Python, a
trailing remainder after the value is an error, a duplicate object key
keeps the last binding, and error strings describe the first failure.
The fuel argument only makes the recursion structural; it is sized so
that it can never run out on the given input. -/

inductive JValue where
  | jnull : JValue
  | jbool : Bool → JValue
  | jnum : String → JValue
  | jstr : String → JValue
  | jarr : List JValue → JValue
  | jobj : List (String × JValue) → JValue

/-- JSON insignificant whitespace. -/
def skipWs (l : List Char) : List Char :=
  l.dropWhile (fun c => c = ' ' || c = '\t' || c = '\n' || c = '\r')

/-- Value of a hexadecimal digit. -/
def hexVal (c : Char) : Option Nat :=
  if c.isDigit then some (c.toNat - 48)
  else if 'a' ≤ c ∧ c ≤ 'f' then some (c.toNat - 87)
  else if 'A' ≤ c ∧ c ≤ 'F' then some (c.toNat - 55)
  else none

/-- Single-character string escapes. -/
def escChar (c : Char) : Option Char :=
  if c = dquote then some dquote
  else if c = bslash then some bslash
  else if c = '/' then some '/'
  else if c = 'n' then some '\n'
  else if c = 't' then some '\t'
  else if c = 'r' then some '\r'
  else if c = 'b' then some (Char.ofNat 8)
  else if c = 'f' then some (Char.ofNat 12)
  else none

/-- Parse a JSON string body (after the opening quote), returning the
decoded characters and the remainder after the closing quote. -/
def jstring : List Char → Except String (List Char × List Char)
  | [] => Except.error "Unterminated string"
  | c :: rest =>
    if c = dquote then Except.ok ([], rest)
    else if c = bslash then
      match rest with
      | [] => Except.error "Unterminated string"
      | e :: r2 =>
        if e = 'u' then
          match r2 with
          | h1 :: h2 :: h3 :: h4 :: r3 =>
            match hexVal h1, hexVal h2, hexVal h3, hexVal h4 with
            | some a, some b, some c4, some d =>
              match jstring r3 with
              | Except.ok (cs, r4) =>
                Except.ok (Char.ofNat (((a * 16 + b) * 16 + c4) * 16 + d) :: cs, r4)
              | Except.error er => Except.error er
            | _, _, _, _ => Except.error "Invalid unicode escape"
          | _ => Except.error "Invalid unicode escape"
        else
          match escChar e with
          | some ec =>
            match jstring r2 with
            | Except.ok (cs, r4) => Except.ok (ec :: cs, r4)
            | Except.error er => Except.error er
          | none => Except.error "Invalid escape"
    else
      match jstring rest with
      | Except.ok (cs, r4) => Except.ok (c :: cs, r4)
      | Except.error er => Except.error er

/-- Parse the fraction part of a number lexeme, if present. -/
def jnumFrac (l : List Char) : Except String (List Char × List Char) :=
  match l with
  | c :: r =>
    if c = '.' then
      let ds := r.takeWhile Char.isDigit
      if ds.isEmpty then Except.error "Expecting digit after decimal point"
      else Except.ok (c :: ds, r.dropWhile Char.isDigit)
    else Except.ok ([], l)
  | [] => Except.ok ([], l)

/-- Parse the exponent part of a number lexeme, if present. -/
def jnumExp (l : List Char) : Except String (List Char × List Char) :=
  match l with
  | c :: r =>
    if c = 'e' || c = 'E' then
      let sr : List Char × List Char :=
        match r with
        | s :: r2 => if s = '+' || s = '-' then ([s], r2) else ([], r)
        | [] => ([], r)
      let ds := sr.2.takeWhile Char.isDigit
      if ds.isEmpty then Except.error "Expecting exponent digits"
      else Except.ok (c :: (sr.1 ++ ds), sr.2.dropWhile Char.isDigit)
    else Except.ok ([], l)
  | [] => Except.ok ([], l)

/-- Parse a JSON number, returning its lexeme and the remainder. -/
def jnumber (l : List Char) : Except String (String × List Char) :=
  let sl : List Char × List Char :=
    match l with
    | c :: r => if c = '-' then ([c], r) else ([], l)
    | [] => ([], l)
  let ip := sl.2.takeWhile Char.isDigit
  if ip.isEmpty then Except.error "Expecting value"
  else
    match jnumFrac (sl.2.dropWhile Char.isDigit) with
    | Except.error e => Except.error e
    | Except.ok (fp, l3) =>
      match jnumExp l3 with
      | Except.error e => Except.error e
      | Except.ok (ep, l4) => Except.ok (String.mk (sl.1 ++ ip ++ fp ++ ep), l4)

/-- Task tag of the decoder step function: parse a value, the members
of an object, or the elements of an array. -/
inductive PTask where
  | pvalue : PTask
  | pmembers : Bool → List (String × JValue) → PTask
  | pelems : Bool → List JValue → PTask

/-- Result tag of the decoder step function. -/
inductive PRes where
  | rvalue : JValue → PRes
  | rmembers : List (String × JValue) → PRes
  | relems : List JValue → PRes

/-- One stratum of the recursive-descent JSON decoder. -/
def jstep : Nat → PTask → List Char → Except String (PRes × List Char)
  | 0, _, _ => Except.error "Input too deeply nested"
  | Nat.succ f, PTask.pvalue, l =>
    match skipWs l with
    | [] => Except.error "Expecting value"
    | c :: rest =>
      if c = lbrace then
        match jstep f (PTask.pmembers true []) rest with
        | Except.ok (PRes.rmembers kvs, r2) => Except.ok (PRes.rvalue (JValue.jobj kvs), r2)
        | Except.ok _ => Except.error "Internal decoder error"
        | Except.error e => Except.error e
      else if c = '[' then
        match jstep f (PTask.pelems true []) rest with
        | Except.ok (PRes.relems vs, r2) => Except.ok (PRes.rvalue (JValue.jarr vs), r2)
        | Except.ok _ => Except.error "Internal decoder error"
        | Except.error e => Except.error e
      else if c = dquote then
        match jstring rest with
        | Except.ok (cs, r2) => Except.ok (PRes.rvalue (JValue.jstr (String.mk cs)), r2)
        | Except.error e => Except.error e
      else if c = 't' then
        if [ 'r', 'u', 'e'].isPrefixOf rest then
          Except.ok (PRes.rvalue (JValue.jbool true), rest.drop 3)
        else Except.error "Expecting value"
      else if c = 'f' then
        if [ 'a', 'l', 's', 'e'].isPrefixOf rest then
          Except.ok (PRes.rvalue (JValue.jbool false), rest.drop 4)
        else Except.error "Expecting value"
      else if c = 'n' then
        if [ 'u', 'l', 'l'].isPrefixOf rest then
          Except.ok (PRes.rvalue JValue.jnull, rest.drop 3)
        else Except.error "Expecting value"
      else if c = '-' || c.isDigit then
        match jnumber (c :: rest) with
        | Except.ok (lex, r2) => Except.ok (PRes.rvalue (JValue.jnum lex), r2)
        | Except.error e => Except.error e
      else Except.error "Expecting value"
  | Nat.succ f, PTask.pmembers first acc, l =>
    match skipWs l with
    | [] => Except.error "Expecting property name"
    | c :: rest =>
      if first && (c = rbrace) then Except.ok (PRes.rmembers acc, rest)
      else if c = dquote then
        match jstring rest with
        | Except.error e => Except.error e
        | Except.ok (kcs, r2) =>
          match skipWs r2 with
          | ':' :: r3 =>
            match jstep f PTask.pvalue r3 with
            | Except.error e => Except.error e
            | Except.ok (PRes.rvalue v, r4) =>
              let acc2 := acc ++ [(String.mk kcs, v)]
              match skipWs r4 with
              | ',' :: r5 => jstep f (PTask.pmembers false acc2) r5
              | c2 :: r5 =>
                if c2 = rbrace then Except.ok (PRes.rmembers acc2, r5)
                else Except.error "Expecting comma delimiter"
              | [] => Except.error "Expecting comma delimiter"
            | Except.ok _ => Except.error "Internal decoder error"
          | _ => Except.error "Expecting colon delimiter"
      else Except.error "Expecting property name"
  | Nat.succ f, PTask.pelems first acc, l =>
    match skipWs l with
    | [] => Except.error "Expecting value"
    | c :: rest =>
      if first && (c = ']') then Except.ok (PRes.relems acc, rest)
      else
        match jstep f PTask.pvalue (c :: rest) with
        | Except.error e => Except.error e
        | Except.ok (PRes.rvalue v, r2) =>
          let acc2 := acc ++ [v]
          match skipWs r2 with
          | ',' :: r3 => jstep f (PTask.pelems false acc2) r3
          | c2 :: r3 =>
            if c2 = ']' then Except.ok (PRes.relems acc2, r3)
            else Except.error "Expecting comma delimiter"
          | [] => Except.error "Expecting comma delimiter"
        | Except.ok _ => Except.error "Internal decoder error"

/-- `json.loads`: decode one value and require only whitespace after
it.  Every recursive stratum of `jstep` consumes at least one character
out of two calls, so the chosen fuel can never be exhausted. -/
def json_loads (s : String) : Except String JValue :=
  match jstep (2 * s.length + 4) PTask.pvalue s.data with
  | Except.error e => Except.error e
  | Except.ok (PRes.rvalue v, rest) =>
    if (skipWs rest).isEmpty then Except.ok v else Except.error "Extra data"
  | Except.ok _ => Except.error "Internal decoder error"

/-! ### Schema validation (`ConsultationOutput`)

Pydantic model `ConsultationOutput` (app.py lines 38-82):
`urgency_level` is required and constrained to the four literals, the
five list fields default to `[]` and must contain strings, and
`summary` is a required string field.  Note that the source puts no
non-emptiness constraint on `summary`: `summary: str = Field(...)`
accepts the empty string. -/

structure ConsultationOutput where
  urgency_level : String
  possible_conditions : List String
  self_care : List String
  see_doctor_if : List String
  emergency_now_if : List String
  clarifying_questions : List String
  summary : String
deriving DecidableEq, Repr

/-- Look up a key in a decoded object; like a Python dict built by
`json.loads`, the last binding of a duplicated key wins. -/
def jLookup (kvs : List (String × JValue)) (k : String) : Option JValue :=
  (kvs.reverse.find? (fun p => p.1 = k)).map Prod.snd

/-- The admissible `urgency_level` literals. -/
def urgencyLiterals : List String := ["none", "low", "medium", "high"]

/-- Validate one list-of-strings element list. -/
def strListOf (k : String) : List JValue → Except String (List String)
  | [] => Except.ok []
  | JValue.jstr s :: rest =>
    match strListOf k rest with
    | Except.ok tl => Except.ok (s :: tl)
    | Except.error e => Except.error e
  | _ :: _ => Except.error (k ++ ": Input should be a valid string")

/-- Validate one list-valued field, defaulting to `[]` when absent. -/
def getListField (kvs : List (String × JValue)) (k : String) : Except String (List String) :=
  match jLookup kvs k with
  | none => Except.ok []
  | some (JValue.jarr xs) => strListOf k xs
  | some _ => Except.error (k ++ ": Input should be a valid list")

/-- Validate the `urgency_level` field: required, and constrained to
the four `Literal` values. -/
def validateUrgency (kvs : List (String × JValue)) : Except String String :=
  match jLookup kvs "urgency_level" with
  | none => Except.error "urgency_level: Field required"
  | some (JValue.jstr s) =>
    if urgencyLiterals.contains s then Except.ok s
    else Except.error "urgency_level: Input should be one of none, low, medium or high"
  | some _ => Except.error "urgency_level: Input should be one of none, low, medium or high"

/-- `ConsultationOutput.model_validate(data)`: succeed exactly on
objects with an admissible `urgency_level`, string-list fields and a
string `summary`; fail with an explanation otherwise.  Note that a
present `summary` only has to be a string: pydantic's plain
`summary: str` field accepts the empty string. -/
def model_validate (j : JValue) : Except String ConsultationOutput :=
  match j with
  | JValue.jobj kvs =>
    match validateUrgency kvs with
    | Except.error e => Except.error e
    | Except.ok u =>
      match getListField kvs "possible_conditions" with
      | Except.error e => Except.error e
      | Except.ok pc =>
        match getListField kvs "self_care" with
        | Except.error e => Except.error e
        | Except.ok sc =>
          match getListField kvs "see_doctor_if" with
          | Except.error e => Except.error e
          | Except.ok sd =>
            match getListField kvs "emergency_now_if" with
            | Except.error e => Except.error e
            | Except.ok en =>
              match getListField kvs "clarifying_questions" with
              | Except.error e => Except.error e
              | Except.ok cq =>
                match jLookup kvs "summary" with
                | none => Except.error "summary: Field required"
                | some (JValue.jstr s) => Except.ok ⟨u, pc, sc, sd, en, cq, s⟩
                | some _ => Except.error "summary: Input should be a valid string"
  | _ => Except.error "Input should be a valid dictionary or instance of ConsultationOutput"

/-- `parse_consultation_output(raw_text)` (app.py lines 242-273)
extracts the brace span, decodes it, validates it, and returns either
the validated object with an empty diagnostic or `None` with the
failing stage's diagnostic message; its three stages are named
separately below.  This is the validation stage. -/
def validate_stage (data : JValue) : Option ConsultationOutput × String :=
  match model_validate data with
  | Except.ok parsed => (some parsed, "")
  | Except.error e => (none, "Schema validation failed: " ++ e)

/-- The decoding stage of `parse_consultation_output`: decode the
extracted span and hand the object to validation. -/
def decode_stage (json_str : String) : Option ConsultationOutput × String :=
  match json_loads json_str with
  | Except.error e => (none, "Invalid JSON: " ++ e)
  | Except.ok data => validate_stage data

/-- Top of `parse_consultation_output`: an empty extraction
short-circuits with the no-payload diagnostic. -/
def parse_consultation_output (raw_text : String) : Option ConsultationOutput × String :=
  if extract_json raw_text = "" then (none, "No JSON object found in consultation output.")
  else decode_stage (extract_json raw_text)

/-! ### The consultation driver `run_consultation`

The completion backend (AutoGen's group chat) is an external
collaborator; it is abstracted as an oracle mapping the initiating
message to the list of `(name, content)` messages accumulated by the
manager.  An explicit event log records the effects the driver
performs: constructing the agents and starting the chat (which is what
issues completion-service calls).  The high-risk branch performs
neither. -/

/-- A displayed chat message (Gradio `messages` format). -/
structure ChatMsg where
  role : String
  content : String
deriving DecidableEq, Repr

/-- Effects of `run_consultation` other than returning values. -/
inductive OrchEvent where
  | buildAgents : OrchEvent
  | initiateChat : String → OrchEvent
deriving DecidableEq, Repr

/-- The four return values of `run_consultation`, plus the event log. -/
structure RunResult where
  chat : List ChatMsg
  alert : String
  finalText : String
  rawLog : String
  events : List OrchEvent
deriving DecidableEq, Repr

/-- The agent-name to display-label map of `extract_chat_messages`. -/
def labelMap : List (String × String) :=
  [ ("diagnosis", "🩺 Diagnosis Agent"),
    ("pharmacy", "💊 Pharmacy Agent"),
    ("consultation", "👨‍⚕️ Consultation Agent"),
    ("patient", "🧑 Patient"),
    ("manager", "🧠 Manager") ]

/-- `extract_chat_messages(manager)` (app.py lines 170-210): keep the
non-empty messages, map the speaker name to its display label (an
unknown or missing name falls back to the name itself or "agent"), and
render the content as `**label**` followed by the text. -/
def extract_chat_messages (msgs : List (String × String)) : List ChatMsg :=
  msgs.filterMap (fun m =>
    if m.2 = "" then none
    else
      let name := if m.1 = "" then "agent" else m.1
      let speaker := ((labelMap.find? (fun p => p.1 = name)).map Prod.snd).getD name
      some ⟨"assistant", "**" ++ speaker ++ "**" ++ "\n\n" ++ m.2⟩)

/-- The initiating message `patient_agent.initiate_chat` sends
(app.py lines 427-436). -/
def opening_message (symptoms age duration extra : String) : String :=
  "I need a medical triage-style suggestion (not a diagnosis). " ++
    "Symptoms: " ++ symptoms ++ " | " ++
    "Age: " ++ (if age = "" then "N/A" else age) ++ " | " ++
    "Duration: " ++ (if duration = "" then "N/A" else duration) ++ " | " ++
    "Extra: " ++ (if extra = "" then "None" else extra) ++ "."

/-- The consultation text selected for structured recovery
(app.py lines 441-445): the last displayed message whose rendered
content mentions "Consultation Agent", or `""` when there is none. -/
def select_consult_raw (msgs : List ChatMsg) : String :=
  ((msgs.reverse.find? (fun m => containsStr m.content "Consultation Agent")).map
    (fun m => m.content)).getD ""

/-- The right single quotation mark used inside the urgent-guidance
banner text. -/
def rsq : String := (Char.ofNat 8217).toString

/-- The urgent-guidance banner of the high-risk branch. -/
def highAlertMd (flags : List String) : String :=
  "## 🚨 Red-flag detected\n" ++
    "**Detected:** " ++ (if flags = [] then "Emergency warning signs" else String.intercalate ", " flags) ++ "\n\n" ++
    "**This may require urgent medical attention.**\n" ++
    "- If symptoms are severe or worsening, **call local emergency services** or go to the **nearest emergency department**.\n" ++
    "- If breathing is difficult, chest pain is severe, or there" ++ rsq ++ "s confusion/fainting, **seek immediate help now**.\n\n" ++
    "_MedAssist MAS provides educational guidance and cannot diagnose emergencies._"

/-- The caution banner of the medium branch. -/
def mediumAlertMd : String :=
  "### 🟠 Caution\n" ++
    "Some factors suggest **higher risk** (e.g., age group + symptoms). " ++
    "Please monitor closely and consider earlier medical advice if symptoms worsen."

/-- The all-clear banner. -/
def noneAlertMd : String :=
  "### ✅ No emergency red-flags detected\nProceeding with triage-style guidance."

/-- Rendering of a successfully validated consultation output
(app.py lines 449-458). -/
def renderFinal (p : ConsultationOutput) : String :=
  "Urgency: " ++ p.urgency_level ++ "\n\n" ++
    "Summary:\n" ++ p.summary ++ "\n\n" ++
    "Possible conditions:\n- " ++
      String.intercalate "\n- " (if p.possible_conditions = [] then ["N/A"] else p.possible_conditions) ++ "\n\n" ++
    "Self-care:\n- " ++
      String.intercalate "\n- " (if p.self_care = [] then ["N/A"] else p.self_care) ++ "\n\n" ++
    "See doctor if:\n- " ++
      String.intercalate "\n- " (if p.see_doctor_if = [] then ["N/A"] else p.see_doctor_if) ++ "\n\n" ++
    "Emergency now if:\n- " ++
      String.intercalate "\n- " (if p.emergency_now_if = [] then ["N/A"] else p.emergency_now_if) ++ "\n\n" ++
    "Clarifying questions:\n- " ++
      String.intercalate "\n- " (if p.clarifying_questions = [] then ["None"] else p.clarifying_questions)

/-- `run_consultation(symptoms, age, duration, extra)`
(app.py lines 369-465): fail fast on empty symptoms; run the red-flag
gate; on `high` return the urgent guidance without building agents or
starting the chat; otherwise build the agents, start the group chat
(abstracted by `oracle`), select the consultation agent's last
message, recover the structured output and render either it or the
labeled fallback. -/
def run_consultation (oracle : String → List (String × String))
    (symptoms age duration extra : String) : RunResult :=
  let symptoms := pyStrip symptoms
  if symptoms = "" then ⟨[], "", "Please enter symptoms to begin.", "", []⟩
  else
    let rf := detect_red_flags symptoms age extra
    if rf.level = "high" then
      ⟨[], highAlertMd rf.flags, "Red-flag detected — seek urgent medical care.", "", []⟩
    else
      let alert_md := if rf.level = "medium" then mediumAlertMd else noneAlertMd
      let opening := opening_message symptoms age duration extra
      let chat_messages := extract_chat_messages (oracle opening)
      let consult_raw := select_consult_raw chat_messages
      let pe := parse_consultation_output consult_raw
      let final :=
        match pe.1 with
        | some p => renderFinal p
        | none =>
          "⚠️ Could not parse structured output.\nReason: " ++ pe.2 ++
            "\n\nRaw output:\n" ++ consult_raw
      let raw_log := String.intercalate "\n\n" (chat_messages.map (fun m => m.content))
      ⟨chat_messages, alert_md, final, raw_log, [OrchEvent.buildAgents, OrchEvent.initiateChat opening]⟩

/-! ### The turn orchestrator -/

/-- Round bound configured at module scope (app.py line 20). -/
def MAX_ROUND : Nat := 5

/-- The declared role order of the group chat
(`GroupChat(agents=[diagnosis_agent, pharmacy_agent,
consultation_agent], ..., speaker_selection_method="round_robin")`,
app.py lines 158-163). -/
def agentNames : List String := ["diagnosis", "pharmacy", "consultation"]

/-- One transcript turn. -/
structure Turn where
  speaker : String
  content : String
deriving DecidableEq, Repr

/-- Modelled from the spec: the turn-orchestration loop itself lives in
the external AutoGen `GroupChat`/`GroupChatManager` machinery and is
not part of this repository's sources; spec section 4.2 describes it as
round-robin dispatch over the fixed role order, one completion-service
call per turn (here the oracle `complete`), halting when the round
bound is exhausted or when the consolidation role's output contains the
completion marker token. -/
def orchLoop (complete : String → List Turn → String) (roles : List String)
    (marker : String) : Nat → List Turn → List Turn
  | 0, acc => acc
  | Nat.succ fuel, acc =>
    let speaker := roles.getD (acc.length % roles.length) ""
    let content := complete speaker acc
    let acc2 := acc ++ [⟨speaker, content⟩]
    if speaker = "consultation" && containsStr content marker then acc2
    else orchLoop complete roles marker fuel acc2

/-- Modelled from the spec: `orchestrate` runs the round-robin loop on
an initially empty transcript for at most `maxRounds` turns. -/
def orchestrate (complete : String → List Turn → String) (roles : List String)
    (marker : String) (maxRounds : Nat) : List Turn :=
  orchLoop complete roles marker maxRounds []

/-! ### Spec-side characterizations

These definitions restate conditions in the spec's own words; the
theorems below compare the source translations against them. -/

/-- Spec wording: "any category hit exists" — some category of the
fixed table has a matching pattern. -/
def anyCategoryHitB (symptoms extra : String) : Bool :=
  redFlagTable.any (fun lp => patternHit (normalizeText symptoms extra) lp.2)

/-- Spec wording: "age is high-risk if below 2 or at/above 65" (on the
parsed age; no age signal means not high-risk). -/
def ageHighRiskB (age : String) : Bool :=
  match parseAge age with
  | some n => decide (n < 2) || decide (65 ≤ n)
  | none => false

/-- Spec wording: "the normalized text contains a fever or
breathing-related token". -/
def feverBreathB (symptoms extra : String) : Bool :=
  containsSub (normalizeText symptoms extra) "fever".data ||
    containsSub (normalizeText symptoms extra) "breathing".data

/-- Spec wording of the level derivation, first match wins:
any hit yields high; else a high-risk age together with a
fever/breathing token yields medium; else none. -/
def levelSpec (symptoms age extra : String) : String :=
  if anyCategoryHitB symptoms extra then "high"
  else if ageHighRiskB age && feverBreathB symptoms extra then "medium"
  else "none"

/-- Spec wording for C7: the text has a brace-delimited span — some
`{` occurs strictly before some `}`. -/
def braceSpanB (l : List Char) : Bool :=
  (List.range l.length).any (fun i =>
    (List.range l.length).any (fun j =>
      decide (i < j) && (l.get? i == some lbrace) && (l.get? j == some rbrace)))


/-! ## Helper lemmas -/

theorem detect_red_flags_level (symptoms age extra : String) :
    (detect_red_flags symptoms age extra).level =
      (if computeHits (normalizeText symptoms extra) = [] then
        (if highRiskAge age &&
            (containsSub (normalizeText symptoms extra) "fever".data ||
              containsSub (normalizeText symptoms extra) "breathing".data) then "medium"
         else "none")
       else "high") := rfl

theorem detect_red_flags_flags (symptoms age extra : String) :
    (detect_red_flags symptoms age extra).flags =
      sortStrings (computeHits (normalizeText symptoms extra)).dedup := rfl

theorem computeHits_eq_nil_iff (t : List Char) :
    computeHits t = [] ↔ ∀ lp ∈ redFlagTable, patternHit t lp.2 = false := by
  rw [computeHits, List.filterMap_eq_nil_iff]
  constructor
  · intro h lp hm
    have h2 := h lp hm
    cases hp : patternHit t lp.2
    · rfl
    · rw [hp] at h2
      simp at h2
  · intro h lp hm
    rw [h lp hm]
    simp

theorem length_insertSorted (x : String) (l : List String) :
    (insertSorted x l).length = l.length + 1 := by
  induction l with
  | nil => rfl
  | cons y ys ih =>
    rw [insertSorted]
    by_cases h : strLt y x
    · rw [if_pos h]
      simp [ih]
    · rw [if_neg h]
      simp

theorem sortStrings_ne_nil (x : String) (xs : List String) : sortStrings (x :: xs) ≠ [] := by
  intro h
  have hlen := congrArg List.length h
  rw [show sortStrings (x :: xs) = insertSorted x (sortStrings xs) from rfl,
    length_insertSorted] at hlen
  simp at hlen

/-! ## C1 -/

/-- C1: for every input whose normalized symptoms-plus-extra text
matches some pattern of some category of the red-flag table,
`detect_red_flags` returns level "high" and a non-empty flags list,
for every value of the age argument. -/
theorem C1_category_match_yields_high (symptoms age extra : String)
    (h : ∃ lp ∈ redFlagTable, ∃ p ∈ lp.2, rsearch p (normalizeText symptoms extra) = true) :
    (detect_red_flags symptoms age extra).level = "high" ∧
      (detect_red_flags symptoms age extra).flags ≠ [] := by
  obtain ⟨lp, hmem, p, hp, hs⟩ := h
  have hhit : patternHit (normalizeText symptoms extra) lp.2 = true := by
    rw [patternHit, List.any_eq_true]
    exact ⟨p, hp, hs⟩
  have hne : computeHits (normalizeText symptoms extra) ≠ [] := by
    intro hnil
    rw [computeHits_eq_nil_iff] at hnil
    rw [hnil lp hmem] at hhit
    exact Bool.false_ne_true hhit
  refine ⟨?_, ?_⟩
  · rw [detect_red_flags_level, if_neg hne]
  · rw [detect_red_flags_flags]
    have hd : (computeHits (normalizeText symptoms extra)).dedup ≠ [] := by
      intro hnil
      exact hne ((List.dedup_eq_nil _).mp hnil)
    cases hdef : (computeHits (normalizeText symptoms extra)).dedup with
    | nil => exact absurd hdef hd
    | cons y ys =>
      exact sortStrings_ne_nil y ys

/-- C1 witness: "chest pain" matches the first category for any age. -/
theorem C1_witness :
    (detect_red_flags "chest pain" "77" "").level = "high" ∧
      (detect_red_flags "chest pain" "77" "").flags ≠ [] :=
  C1_category_match_yields_high "chest pain" "77" "" (by decide)

/-! ## C3 -/

/-- C3: the level of `detect_red_flags` is derived exactly as the spec
words it (any hit wins with "high", else a high-risk parsed age (below
2 or at/above 65) together with a fever/breathing token gives
"medium", else "none"), and in particular age "1" or "70" with text
"fever" (which matches no category pattern) yields "medium". -/
theorem C3_level_priority :
    (∀ s a e : String, (detect_red_flags s a e).level = levelSpec s a e) ∧
      (detect_red_flags "fever" "1" "").level = "medium" ∧
      (detect_red_flags "fever" "70" "").level = "medium" := by
  refine ⟨fun s a e => ?_, by decide, by decide⟩
  rw [detect_red_flags_level, levelSpec]
  have hiff : (computeHits (normalizeText s e) = []) ↔ (anyCategoryHitB s e = false) := by
    rw [computeHits_eq_nil_iff, anyCategoryHitB, List.any_eq_false]
    constructor
    · intro h lp hm
      rw [h lp hm]
      simp
    · intro h lp hm
      cases hp : patternHit (normalizeText s e) lp.2
      · rfl
      · exact absurd hp (h lp hm)
  by_cases hc : computeHits (normalizeText s e) = []
  · rw [if_pos hc, hiff.mp hc]
    simp only [Bool.false_eq_true, if_false]
    rfl
  · rw [if_neg hc]
    cases hx : anyCategoryHitB s e
    · exact absurd (hiff.mpr hx) hc
    · simp

/-! ## C4 -/

/-- C4 counterexample: the claim says a pattern-free input with age
outside [2,65) yields level "none"; but for symptoms "fever" (which
matches no category pattern) and age "70" (parsed 70, outside [2,65)),
the code returns "medium", not "none". -/
theorem C4_counterexample :
    (redFlagTable.all (fun lp => lp.2.all (fun p => !(rsearch p (normalizeText "fever" ""))))) = true ∧
      parseAge "70" = some 70 ∧
      (70 < 2 ∨ 65 ≤ 70) ∧
      (detect_red_flags "fever" "70" "").level = "medium" ∧
      ("medium" : String) ≠ "none" := by decide

/-- C4 amended: for every input text matching no red-flag pattern and
containing neither "fever" nor "breathing" after normalization,
`detect_red_flags` returns level "none" for every age outside [2,65). -/
theorem C4_no_pattern_no_token_is_none (s a e : String)
    (hnp : redFlagTable.all (fun lp => lp.2.all (fun p => !(rsearch p (normalizeText s e)))) = true)
    (_hage : highRiskAge a = true)
    (hnf : containsSub (normalizeText s e) "fever".data = false)
    (hnb : containsSub (normalizeText s e) "breathing".data = false) :
    (detect_red_flags s a e).level = "none" := by
  have hc : computeHits (normalizeText s e) = [] := by
    rw [computeHits_eq_nil_iff]
    intro lp hm
    rw [List.all_eq_true] at hnp
    have h2 := hnp lp hm
    rw [List.all_eq_true] at h2
    rw [patternHit, List.any_eq_false]
    intro p hp
    have h3 := h2 p hp
    rw [Bool.not_eq_eq_eq_not, Bool.not_true] at h3
    rw [h3]
    simp
  rw [detect_red_flags_level, if_pos hc, hnf, hnb]
  simp

/-- C4 witness for the amended claim: a benign text with age 70. -/
theorem C4_witness : (detect_red_flags "mild headache" "70" "").level = "none" :=
  C4_no_pattern_no_token_is_none "mild headache" "70" "" (by decide) (by decide)
    (by decide) (by decide)

/-! ## C9 -/

/-- C9: age noninterference of the safety gate — for fixed symptoms
and extra text, the flags list is identical for any two age strings,
and varying age alone can never change whether the level is "high"
(patterns are matched only against the symptoms-plus-extra text, so
age only selects between "none" and "medium"). -/
theorem C9_age_noninterference (s e a1 a2 : String) :
    (detect_red_flags s a1 e).flags = (detect_red_flags s a2 e).flags ∧
      ((detect_red_flags s a1 e).level = "high" ↔ (detect_red_flags s a2 e).level = "high") := by
  constructor
  · rw [detect_red_flags_flags, detect_red_flags_flags]
  · rw [detect_red_flags_level, detect_red_flags_level]
    by_cases hc : computeHits (normalizeText s e) = []
    · rw [if_pos hc, if_pos hc]
      have hnh : ∀ b : Bool, (if b then "medium" else "none") ≠ "high" := by
        intro b
        cases b <;> decide
      constructor <;> intro h
      · exact absurd h (hnh _)
      · exact absurd h (hnh _)
    · rw [if_neg hc, if_neg hc]

/-! ## C2 -/

theorem run_consultation_high (oracle : String → List (String × String))
    (s a d e : String) (hs : pyStrip s ≠ "")
    (hh : (detect_red_flags (pyStrip s) a e).level = "high") :
    run_consultation oracle s a d e =
      ⟨[], highAlertMd (detect_red_flags (pyStrip s) a e).flags,
        "Red-flag detected — seek urgent medical care.", "", []⟩ := by
  rw [run_consultation]
  simp only [if_neg hs, hh]
  simp

/-- C2: whenever the safety gate classifies the (stripped) request as
level "high", `run_consultation` returns the urgent guidance with an
empty chat and an empty event log — no agents are constructed and no
chat (hence no completion-service call) is initiated — and the result
does not depend on the completion backend at all. -/
theorem C2_high_risk_halts (o1 o2 : String → List (String × String)) (s a d e : String)
    (hs : pyStrip s ≠ "")
    (hh : (detect_red_flags (pyStrip s) a e).level = "high") :
    (run_consultation o1 s a d e).finalText = "Red-flag detected — seek urgent medical care." ∧
      (run_consultation o1 s a d e).events = [] ∧
      (run_consultation o1 s a d e).chat = [] ∧
      run_consultation o1 s a d e = run_consultation o2 s a d e := by
  rw [run_consultation_high o1 s a d e hs hh, run_consultation_high o2 s a d e hs hh]
  exact ⟨rfl, rfl, rfl, rfl⟩

/-- C2 witness: a chest-pain request halts identically under two
different completion backends. -/
theorem C2_witness :
    (run_consultation (fun _ => []) "chest pain" "" "" "").finalText =
      "Red-flag detected — seek urgent medical care." :=
  (C2_high_risk_halts (fun _ => []) (fun _ => [("diagnosis", "hello")]) "chest pain" "" "" ""
    (by decide) (by decide)).1

/-! ## C5 -/

theorem decode_stage_ok (s : String) (data : JValue) (h : json_loads s = Except.ok data) :
    decode_stage s = validate_stage data := by
  rw [decode_stage, h]

theorem decode_stage_error (s e : String) (h : json_loads s = Except.error e) :
    decode_stage s = (none, "Invalid JSON: " ++ e) := by
  rw [decode_stage, h]

theorem validate_stage_ok (data : JValue) (p : ConsultationOutput)
    (h : model_validate data = Except.ok p) : validate_stage data = (some p, "") := by
  rw [validate_stage, h]

theorem validate_stage_error (data : JValue) (e : String)
    (h : model_validate data = Except.error e) :
    validate_stage data = (none, "Schema validation failed: " ++ e) := by
  rw [validate_stage, h]

theorem model_validate_ok_summary (kvs : List (String × JValue)) (r : ConsultationOutput)
    (h : model_validate (JValue.jobj kvs) = Except.ok r) :
    ∃ s, jLookup kvs "summary" = some (JValue.jstr s) := by
  simp only [model_validate] at h
  repeat' split at h
  all_goals simp at h
  exact ⟨_, by assumption⟩

/-- C5 counterexample: the claim requires a decoded payload whose
`summary` is the empty string to be rejected with `SCHEMA_INVALID`,
but the source schema (`summary: str`) accepts it: the empty-summary
payload validates successfully with an empty diagnostic. -/
theorem C5_counterexample :
    parse_consultation_output "\x7b\"urgency_level\":\"low\",\"summary\":\"\"\x7d" =
      (some ⟨"low", [], [], [], [], [], ""⟩, "") := by decide

/-- C5 amended: `summary` is required — for every extracted and
successfully decoded object payload with no `summary` member,
validation fails and `parse_consultation_output` returns no result
together with the schema diagnostic that retains the validator's
explanation; a present but empty `summary` is accepted. -/
theorem C5_missing_summary_schema_invalid (raw : String) (kvs : List (String × JValue))
    (hne : extract_json raw ≠ "")
    (hdec : json_loads (extract_json raw) = Except.ok (JValue.jobj kvs))
    (hmiss : jLookup kvs "summary" = none) :
    ∃ e, model_validate (JValue.jobj kvs) = Except.error e ∧
      parse_consultation_output raw = (none, "Schema validation failed: " ++ e) := by
  have hval : ∀ r, model_validate (JValue.jobj kvs) ≠ Except.ok r := by
    intro r hv
    obtain ⟨s2, hs2⟩ := model_validate_ok_summary kvs r hv
    rw [hmiss] at hs2
    exact Option.noConfusion hs2
  cases he : model_validate (JValue.jobj kvs) with
  | ok r => exact absurd he (hval r)
  | error e =>
    refine ⟨e, rfl, ?_⟩
    rw [parse_consultation_output, if_neg hne, decode_stage_ok _ _ hdec,
      validate_stage_error _ _ he]

/-- C5 witness: a payload with `urgency_level` but no `summary`. -/
theorem C5_witness :
    ∃ e, model_validate (JValue.jobj [("urgency_level", JValue.jstr "low")]) = Except.error e ∧
      parse_consultation_output "\x7b\"urgency_level\":\"low\"\x7d" =
        (none, "Schema validation failed: " ++ e) :=
  C5_missing_summary_schema_invalid "\x7b\"urgency_level\":\"low\"\x7d"
    [("urgency_level", JValue.jstr "low")] (by decide) (by rfl) (by rfl)

/-! ## C6 -/

/-- C6: on the input `Sure! {"urgency_level":"low","summary":"rest"}`
recovery returns the validated result with urgency "low", summary
"rest", all list fields defaulted to empty, and an empty diagnostic;
and in general every successful recovery carries an empty
diagnostic. -/
theorem C6_success_roundtrip :
    parse_consultation_output "Sure! \x7b\"urgency_level\":\"low\",\"summary\":\"rest\"\x7d" =
        (some ⟨"low", [], [], [], [], [], "rest"⟩, "") ∧
      ∀ raw : String, (parse_consultation_output raw).1.isSome = true →
        (parse_consultation_output raw).2 = "" := by
  refine ⟨by decide, fun raw h => ?_⟩
  rw [parse_consultation_output] at h ⊢
  by_cases hne : extract_json raw = ""
  · rw [if_pos hne] at h
    simp at h
  · rw [if_neg hne] at h ⊢
    cases hj : json_loads (extract_json raw) with
    | error e =>
      rw [decode_stage_error _ _ hj] at h
      simp at h
    | ok data =>
      rw [decode_stage_ok _ _ hj] at h ⊢
      cases hv : model_validate data with
      | ok p =>
        rw [validate_stage_ok _ _ hv]
      | error e =>
        rw [validate_stage_error _ _ hv] at h
        simp at h

/-- C6 witness: the concrete successful input has an empty
diagnostic. -/
theorem C6_witness :
    (parse_consultation_output "Sure! \x7b\"urgency_level\":\"low\",\"summary\":\"rest\"\x7d").2 = "" :=
  C6_success_roundtrip.2 "Sure! \x7b\"urgency_level\":\"low\",\"summary\":\"rest\"\x7d" (by decide)

/-! ## C7 -/

theorem afb_decomp (l s : List Char) (h : afterFirstBrace l = some s) :
    ∃ w m, l = w ++ s ∧ s = lbrace :: m ∧ lbrace ∉ w := by
  induction l with
  | nil => exact Option.noConfusion h
  | cons c cs ih =>
    rw [afterFirstBrace] at h
    by_cases hc : c = lbrace
    · rw [if_pos hc] at h
      injection h with h2
      exact ⟨[], cs, by rw [List.nil_append, ← h2], by rw [← h2, hc], by simp⟩
    · rw [if_neg hc] at h
      obtain ⟨w, m, h1, h2, h3⟩ := ih h
      refine ⟨c :: w, m, by rw [List.cons_append, ← h1], h2, ?_⟩
      intro hmem
      rcases List.mem_cons.mp hmem with h4 | h4
      · exact hc h4.symm
      · exact h3 h4

theorem afb_append (w l : List Char) (hw : lbrace ∉ w) :
    afterFirstBrace (w ++ l) = afterFirstBrace l := by
  induction w with
  | nil => rfl
  | cons c cs ih =>
    have hc : c ≠ lbrace := fun h => hw (by rw [← h]; exact List.mem_cons_self c cs)
    rw [List.cons_append, afterFirstBrace, if_neg hc]
    exact ih (fun h => hw (List.mem_cons_of_mem c h))

theorem afb_cons_lbrace (m : List Char) :
    afterFirstBrace (lbrace :: m) = some (lbrace :: m) := by
  rw [afterFirstBrace, if_pos rfl]

theorem duc_eq_none (r : List Char) (h : rbrace ∉ r) : dropUntilClose r = none := by
  induction r with
  | nil => rfl
  | cons c cs ih =>
    have hc : c ≠ rbrace := fun hh => h (by rw [← hh]; exact List.mem_cons_self c cs)
    rw [dropUntilClose, if_neg hc]
    exact ih (fun hh => h (List.mem_cons_of_mem c hh))

theorem duc_append (a b : List Char) (ha : rbrace ∉ a) :
    dropUntilClose (a ++ b) = dropUntilClose b := by
  induction a with
  | nil => rfl
  | cons c cs ih =>
    have hc : c ≠ rbrace := fun hh => ha (by rw [← hh]; exact List.mem_cons_self c cs)
    rw [List.cons_append, dropUntilClose, if_neg hc]
    exact ih (fun hh => ha (List.mem_cons_of_mem c hh))

theorem duc_cons_rbrace (r : List Char) :
    dropUntilClose (rbrace :: r) = some (rbrace :: r) := by
  rw [dropUntilClose, if_pos rfl]

theorem braceSpanB_of_split (l w m : List Char) (hl : l = w ++ lbrace :: m)
    (hm : rbrace ∈ m) : braceSpanB l = true := by
  obtain ⟨k, hk⟩ := List.get?_of_mem hm
  have hgi : l.get? w.length = some lbrace := by
    rw [hl, List.get?_append_right (Nat.le_refl _), Nat.sub_self]
    rfl
  have hgj : l.get? (w.length + 1 + k) = some rbrace := by
    rw [hl, List.get?_append_right (by omega)]
    have : w.length + 1 + k - w.length = k + 1 := by omega
    rw [this]
    exact hk
  have hi : w.length < l.length := by
    obtain ⟨hlt, _⟩ := List.get?_eq_some.mp hgi
    exact hlt
  have hj : w.length + 1 + k < l.length := by
    obtain ⟨hlt, _⟩ := List.get?_eq_some.mp hgj
    exact hlt
  rw [braceSpanB, List.any_eq_true]
  refine ⟨w.length, List.mem_range.mpr hi, ?_⟩
  rw [List.any_eq_true]
  refine ⟨w.length + 1 + k, List.mem_range.mpr hj, ?_⟩
  rw [hgi, hgj]
  simp
  omega

theorem extract_json_eq_empty (t : String) (hb : braceSpanB t.data = false) :
    extract_json t = "" := by
  rw [extract_json]
  cases h1 : afterFirstBrace t.data with
  | none => rfl
  | some s =>
    obtain ⟨w, m, hdec, hs, _⟩ := afb_decomp t.data s h1
    have hrm : rbrace ∉ m := by
      intro hmem
      rw [braceSpanB_of_split t.data w m (by rw [hdec, hs]) hmem] at hb
      exact Bool.noConfusion hb
    have hrs : rbrace ∉ s := by
      rw [hs]
      intro hmem
      rcases List.mem_cons.mp hmem with h4 | h4
      · exact (by decide : rbrace ≠ lbrace) h4
      · exact hrm h4
    have hnone : dropUntilClose s.reverse = none :=
      duc_eq_none _ (fun hh => hrs (List.mem_reverse.mp hh))
    simp only [Option.some_bind]
    rw [upToLastClose, hnone]
    rfl

/-- C7: if the text has no brace-delimited span (no `{` strictly
before a `}`), recovery returns no result with the no-payload
diagnostic; and when a span exists, extraction returns exactly the
greedy span from the first `{` to the last `}`. -/
theorem C7_no_payload_and_greedy_span :
    (∀ t : String, braceSpanB t.data = false →
      parse_consultation_output t = (none, "No JSON object found in consultation output.")) ∧
    (∀ (t : String) (w mid u v : List Char),
      t.data = w ++ lbrace :: mid → lbrace ∉ w →
      lbrace :: mid = u ++ v → u.getLast? = some rbrace → rbrace ∉ v →
      extract_json t = String.mk u) := by
  constructor
  · intro t hb
    rw [parse_consultation_output, extract_json_eq_empty t hb, if_pos rfl]
  · intro t w mid u v h1 h2 h3 h4 h5
    have hafb : afterFirstBrace t.data = some (lbrace :: mid) := by
      rw [h1, afb_append w _ h2, afb_cons_lbrace]
    rw [extract_json, hafb]
    simp only [Option.some_bind]
    cases hur : u.reverse with
    | nil =>
      have hu : u = [] := by
        have h6 := congrArg List.reverse hur
        rw [List.reverse_reverse] at h6
        rw [h6]
        rfl
      rw [hu] at h4
      exact Option.noConfusion h4
    | cons c cs =>
      have hu : u = cs.reverse ++ [c] := by
        have h6 := congrArg List.reverse hur
        rw [List.reverse_reverse] at h6
        rw [h6, List.reverse_cons]
      have hc : c = rbrace := by
        rw [hu, List.getLast?_concat] at h4
        injection h4 with h4
      have hrev : (lbrace :: mid).reverse = v.reverse ++ (rbrace :: cs) := by
        rw [h3, List.reverse_append, hur, hc]
      have hnv : rbrace ∉ v.reverse := fun hh => h5 (List.mem_reverse.mp hh)
      rw [upToLastClose, hrev, duc_append _ _ hnv, duc_cons_rbrace]
      have hback : (rbrace :: cs).reverse = u := by
        rw [← hc, ← hur, List.reverse_reverse]
      simp only [Option.map_some', Option.getD_some]
      rw [hback]

/-- C7 witness: a brace-free text yields the no-payload diagnostic,
and a concrete span is extracted greedily. -/
theorem C7_witness :
    parse_consultation_output "no payload here" =
        (none, "No JSON object found in consultation output.") ∧
      extract_json "a\x7bb\x7dc" = String.mk [lbrace, 'b', rbrace] :=
  ⟨C7_no_payload_and_greedy_span.1 "no payload here" (by decide),
   C7_no_payload_and_greedy_span.2 "a\x7bb\x7dc" [ 'a'] [ 'b', rbrace, 'c']
     [lbrace, 'b', rbrace] [ 'c'] (by decide) (by decide) (by decide) (by decide) (by decide)⟩

/-! ## C8 -/

theorem orchLoop_length (complete : String → List Turn → String) (roles : List String)
    (marker : String) (fuel : Nat) (acc : List Turn) :
    (orchLoop complete roles marker fuel acc).length ≤ acc.length + fuel := by
  induction fuel generalizing acc with
  | zero =>
    rw [orchLoop]
    omega
  | succ f ih =>
    rw [orchLoop]
    split
    · simp only [List.length_append, List.length_cons, List.length_nil]
      omega
    · refine le_trans (ih _) ?_
      simp only [List.length_append, List.length_cons, List.length_nil]
      omega

theorem orchLoop_speaker (complete : String → List Turn → String) (roles : List String)
    (marker : String) (fuel : Nat) (acc : List Turn)
    (hinv : ∀ k t, acc.get? k = some t → t.speaker = roles.getD (k % roles.length) "") :
    ∀ k t, (orchLoop complete roles marker fuel acc).get? k = some t →
      t.speaker = roles.getD (k % roles.length) "" := by
  induction fuel generalizing acc with
  | zero =>
    rw [orchLoop]
    exact hinv
  | succ f ih =>
    have hinv2 : ∀ k t,
        (acc ++ [(⟨roles.getD (acc.length % roles.length) "",
          complete (roles.getD (acc.length % roles.length) "") acc⟩ : Turn)]).get? k = some t →
        t.speaker = roles.getD (k % roles.length) "" := by
      intro k t hk
      rcases Nat.lt_trichotomy k acc.length with hlt | heq | hgt
      · rw [List.get?_append hlt] at hk
        exact hinv k t hk
      · rw [heq] at hk
        rw [List.get?_concat_length] at hk
        injection hk with hk
        rw [← hk, heq]
      · rw [List.get?_eq_none.mpr (by simp; omega)] at hk
        exact Option.noConfusion hk
    intro k t h
    rw [orchLoop] at h
    split at h
    · exact hinv2 k t h
    · exact ih _ hinv2 k t h

/-- C8: the orchestrator (modelled from the spec, since the loop lives
in the external AutoGen library configured by
`build_agents_and_manager` with the declared role order and
`max_round = MAX_ROUND = 5`) produces, for any completion backend,
marker and round bound R, a transcript with at most R turns whose
speaker sequence cycles round-robin through the declared role order. -/
theorem C8_round_bound_and_round_robin :
    MAX_ROUND = 5 ∧
      (∀ (complete : String → List Turn → String) (marker : String) (R : Nat),
        (orchestrate complete agentNames marker R).length ≤ R) ∧
      (∀ (complete : String → List Turn → String) (marker : String) (R k : Nat) (t : Turn),
        (orchestrate complete agentNames marker R).get? k = some t →
        t.speaker = agentNames.getD (k % agentNames.length) "") := by
  refine ⟨rfl, fun c m R => ?_, fun c m R k t h => ?_⟩
  · have h := orchLoop_length c agentNames m R []
    simpa using h
  · exact orchLoop_speaker c agentNames m R []
      (fun k t hk => by simp at hk) k t h

/-- C8 witness: with a backend that never emits the marker and bound
2, the first turn's speaker is the first declared role. -/
theorem C8_witness :
    (⟨"diagnosis", "no marker"⟩ : Turn).speaker = agentNames.getD (0 % agentNames.length) "" :=
  C8_round_bound_and_round_robin.2.2 (fun _ _ => "no marker") "WRAP" 2 0
    ⟨"diagnosis", "no marker"⟩ (by decide)

/-! ## C10 -/

/-- C10: the text handed to structured recovery is the last displayed
message whose rendered content contains "Consultation Agent"; and when
no such message exists, `run_consultation` parses the empty string,
obtains the no-payload diagnostic, and returns the labeled fallback
text instead of failing. -/
theorem C10_selection_and_fallback :
    (∀ (xs ys : List ChatMsg) (m : ChatMsg),
      containsStr m.content "Consultation Agent" = true →
      (∀ y ∈ ys, containsStr y.content "Consultation Agent" = false) →
      select_consult_raw (xs ++ m :: ys) = m.content) ∧
    (∀ (oracle : String → List (String × String)) (s a d e : String),
      pyStrip s ≠ "" →
      (detect_red_flags (pyStrip s) a e).level ≠ "high" →
      (∀ mm ∈ extract_chat_messages (oracle (opening_message (pyStrip s) a d e)),
        containsStr mm.content "Consultation Agent" = false) →
      (run_consultation oracle s a d e).finalText =
        "⚠️ Could not parse structured output.\nReason: No JSON object found in consultation output.\n\nRaw output:\n") := by
  constructor
  · intro xs ys m hm hys
    rw [select_consult_raw, List.reverse_append, List.reverse_cons]
    have hnone : (ys.reverse).find? (fun mm => containsStr mm.content "Consultation Agent") = none :=
      List.find?_eq_none.mpr (fun x hx => by
        rw [hys x (List.mem_reverse.mp hx)]
        simp)
    rw [List.append_assoc, List.find?_append, hnone, Option.none_or, List.cons_append,
      List.find?_cons, hm]
    rfl
  · intro oracle s a d e hs hh hall
    have hsel : select_consult_raw
        (extract_chat_messages (oracle (opening_message (pyStrip s) a d e))) = "" := by
      rw [select_consult_raw, List.find?_eq_none.mpr (fun x hx => by
        rw [hall x (List.mem_reverse.mp hx)]
        simp)]
      rfl
    rw [run_consultation]
    simp only [if_neg hs, if_neg hh]
    rw [hsel]
    rfl

/-- C10 witness: concrete selection of the last matching message, and
the concrete fallback when the backend produces no consultation
turn. -/
theorem C10_witness :
    select_consult_raw
        ([] ++ (⟨"assistant", "**👨‍⚕️ Consultation Agent**\n\nok"⟩ : ChatMsg) :: []) =
        "**👨‍⚕️ Consultation Agent**\n\nok" ∧
      (run_consultation (fun _ => []) "sore throat" "26" "" "").finalText =
        "⚠️ Could not parse structured output.\nReason: No JSON object found in consultation output.\n\nRaw output:\n" :=
  ⟨C10_selection_and_fallback.1 [] [] ⟨"assistant", "**👨‍⚕️ Consultation Agent**\n\nok"⟩
      (by decide) (fun y hy => absurd hy (List.not_mem_nil y)),
   C10_selection_and_fallback.2 (fun _ => []) "sore throat" "26" "" "" (by decide) (by decide)
      (fun mm hmm => absurd hmm (List.not_mem_nil mm))⟩
